import Mathlib

/-!
Verification of the conditional flow-matching engine in
`f5_tts_mlx/cfm.py` (class `F5TTS`): duration resolution, classifier-free
guidance, ODE integration, training dropout flags, loss normalization,
noise seeding, sway time-grid warping and validity-mask selection inside
`F5TTS.sample` and `F5TTS.__call__`.

Arrays are embedded as `List ℚ` (one entry per element, batch and channel
dimensions flattened where they play no role); machine floats are embedded
as rationals, real-valued trigonometry as `ℝ`.
-/

set_option maxHeartbeats 1000000

namespace F5TTS

/-! ### Elementwise array arithmetic (mlx broadcasting on same-shape arrays) -/

/-- Elementwise addition of two same-length arrays, `a + b` in mlx. -/
def vadd (a b : List ℚ) : List ℚ := List.zipWith (fun x y => x + y) a b

/-- Elementwise subtraction, `a - b` in mlx. -/
def vsub (a b : List ℚ) : List ℚ := List.zipWith (fun x y => x - y) a b

/-- Scalar multiplication, `c * a` in mlx. -/
def vsmul (c : ℚ) (a : List ℚ) : List ℚ := a.map (fun x => c * x)

/-- Three-argument zip, used for `mx.where(mask, a, b)` on same-shape arrays. -/
def zipWith3 {α β γ δ : Type} (f : α → β → γ → δ) : List α → List β → List γ → List δ
  | a :: as, b :: bs, c :: cs => f a b c :: zipWith3 f as bs cs
  | _, _, _ => []

/-! ### C1: duration resolution (`cfm.py` lines 289-290)

`duration = mx.maximum(lens + 1, duration)` followed by
`duration = mx.clip(duration, 0, max_duration)`, per example. `mx.clip`
applies the lower bound first, then the upper bound. -/

/-- Per-example duration resolution from `F5TTS.sample`:
raise to `lens + 1`, then clip into `[0, max_duration]`. -/
def resolve_duration (lens dur max_dur : ℤ) : ℤ :=
  min (max (max (lens + 1) dur) 0) max_dur

/-- Claim C1 as stated is false: with `lens = 5`, requested duration `2`
and configured maximum `3`, the resolved duration is `3`, which is not
at least `lens + 1 = 6`. The clip to the maximum runs after the raise
to `lens + 1` and wins. -/
theorem resolve_duration_claim_false :
    resolve_duration 5 2 3 = 3 ∧ ¬ ((5 : ℤ) + 1 ≤ 3) := by
  constructor
  · rfl
  · decide

/-- Claim C1 (amended): for nonnegative `lens`, the resolved duration
never exceeds the configured maximum, and whenever `lens + 1` fits under
the maximum it is a lower bound; a request below `lens + 1` is raised
exactly to `lens + 1`, and a request at or above `lens + 1` is clipped
down to the maximum. -/
theorem resolve_duration_spec (lens dur max_dur : ℤ)
    (h0 : 0 ≤ lens) (h : lens + 1 ≤ max_dur) :
    resolve_duration lens dur max_dur ≤ max_dur ∧
    lens + 1 ≤ resolve_duration lens dur max_dur ∧
    (dur ≤ lens + 1 → resolve_duration lens dur max_dur = lens + 1) ∧
    (lens + 1 ≤ dur → resolve_duration lens dur max_dur = min dur max_dur) := by
  unfold resolve_duration
  refine ⟨min_le_right _ _, ?_, ?_, ?_⟩
  · exact le_min (le_max_of_le_left (le_max_left _ _)) h
  · intro hd
    rw [max_eq_left hd, max_eq_left (by omega), min_eq_left h]
  · intro hd
    rw [max_eq_right hd, max_eq_left (by omega)]

/-- Witness for `resolve_duration_spec` at `lens = 4`, `dur = 2`,
`max_dur = 4096`. -/
theorem resolve_duration_spec_witness :
    (0 : ℤ) ≤ 4 ∧ (4 : ℤ) + 1 ≤ 4096 ∧ resolve_duration 4 2 4096 = 5 :=
  ⟨by decide, by decide,
    (resolve_duration_spec 4 2 4096 (by decide) (by decide)).2.2.1 (by decide)⟩

/-! ### C5: training-time classifier-free-guidance dropout flags
(`cfm.py` lines 142-148)

```
drop_audio_cond = random() < self.audio_drop_prob
if random() < self.cond_drop_prob:
    drop_audio_cond = True
    drop_text = True
else:
    drop_text = False
```
`u1` and `u2` are the two successive `random()` draws. The result is the
pair `(drop_audio_cond, drop_text)`. -/

/-- Dropout-flag computation from `F5TTS.__call__`. -/
def cfg_drop_flags (u1 u2 audio_drop_prob cond_drop_prob : ℚ) : Bool × Bool :=
  let drop_audio_cond := decide (u1 < audio_drop_prob)
  if u2 < cond_drop_prob then (true, true) else (drop_audio_cond, false)

/-- Claim C5: `drop_text = (u2 < cond_drop_prob)` and
`drop_audio_cond = (u1 < audio_drop_prob) OR drop_text`; hence
`drop_text` forces `drop_audio_cond`, and `drop_audio_cond` can hold with
`drop_text` false. -/
theorem cfg_drop_flags_spec (u1 u2 p_audio p_cond : ℚ) :
    (cfg_drop_flags u1 u2 p_audio p_cond).2 = decide (u2 < p_cond) ∧
    (cfg_drop_flags u1 u2 p_audio p_cond).1 =
      (decide (u1 < p_audio) || decide (u2 < p_cond)) ∧
    ((cfg_drop_flags u1 u2 p_audio p_cond).2 = true →
      (cfg_drop_flags u1 u2 p_audio p_cond).1 = true) ∧
    ((cfg_drop_flags 0 1 1 0).1 = true ∧ (cfg_drop_flags 0 1 1 0).2 = false) := by
  unfold cfg_drop_flags
  by_cases h : u2 < p_cond
  · simp [h]
    decide
  · simp [h]
    decide

/-- Witness for `cfg_drop_flags_spec`: at `u2 = 0 < p_cond = 1` the
text-drop flag fires and forces the audio-drop flag. -/
theorem cfg_drop_flags_spec_witness :
    (cfg_drop_flags 1 0 0 1).2 = true ∧ (cfg_drop_flags 1 0 0 1).1 = true :=
  ⟨by decide, (cfg_drop_flags_spec 1 0 0 1).2.2.1 (by decide)⟩

/-! ### C2: conditioning reinsertion in `F5TTS.sample`
(`cfm.py` lines 310-312 and 366-368)

```
if no_ref_audio:
    cond = mx.zeros_like(cond)
...
sampled = trajectory[-1]
out = sampled
out = mx.where(cond_mask, cond, out)
```
The `cond` used in the final `mx.where` is the possibly zeroed one. -/

/-- Final output assembly from `F5TTS.sample`: zero the conditioning when
`no_ref_audio` is set, then overwrite conditioning-mask positions of the
final trajectory state with (that, possibly zeroed) conditioning. -/
def sample_out (no_ref_audio : Bool) (cond : List ℚ) (cond_mask : List Bool)
    (sampled : List ℚ) : List ℚ :=
  let cond1 := if no_ref_audio then cond.map (fun _ => (0 : ℚ)) else cond
  zipWith3 (fun m c s => if m then c else s) cond_mask cond1 sampled

/-- Claim C2 as stated is false: with `no_ref_audio = true`, original
conditioning `[5]`, mask `[true]` and final trajectory state `[7]`, the
mask-true output position is `0`, not the original conditioning value
`5` — the final `mx.where` reinserts the zeroed conditioning. -/
theorem sample_out_claim_false :
    sample_out true [5] [true] [7] = [0] ∧ (0 : ℚ) ≠ 5 := by
  constructor
  · rfl
  · decide

/-- Claim C2 (amended): at every conditioning-mask position the output
equals the conditioning value used at reinsertion time — the original
value when `no_ref_audio` is false, and `0` when it is true — and every
other position equals the corresponding final trajectory value. -/
theorem sample_out_spec (nra : Bool) (cond : List ℚ) (mask : List Bool)
    (sampled : List ℚ) (i : ℕ)
    (hc : mask.length ≤ cond.length) (hs : mask.length ≤ sampled.length)
    (hi : i < mask.length) :
    (sample_out nra cond mask sampled).getD i 0 =
      if mask.getD i false then (if nra then 0 else cond.getD i 0)
      else sampled.getD i 0 := by
  induction mask generalizing cond sampled i with
  | nil => exact absurd hi (Nat.not_lt_zero i)
  | cons m ms ih =>
    match cond, sampled with
    | [], _ => simp at hc
    | _, [] => simp at hs
    | c :: cs, s :: ss =>
      match i with
      | 0 =>
        cases nra <;> simp [sample_out, zipWith3]
      | Nat.succ j =>
        have hc' : ms.length ≤ cs.length := Nat.le_of_succ_le_succ hc
        have hs' : ms.length ≤ ss.length := Nat.le_of_succ_le_succ hs
        have hj : j < ms.length := Nat.lt_of_succ_lt_succ hi
        have := ih cs ss j hc' hs' hj
        cases nra <;>
          simpa [sample_out, zipWith3] using this

/-- Witness for `sample_out_spec` at `nra = false`, `cond = [5, 6]`,
`mask = [true, false]`, `sampled = [7, 8]`, position `1`. -/
theorem sample_out_spec_witness :
    ([true, false].length ≤ [(5 : ℚ), 6].length ∧
      [true, false].length ≤ [(7 : ℚ), 8].length ∧ 1 < [true, false].length) ∧
    (sample_out false [5, 6] [true, false] [7, 8]).getD 1 0 =
      if [true, false].getD 1 false then (if false then 0 else [(5 : ℚ), 6].getD 1 0)
      else [(7 : ℚ), 8].getD 1 0 :=
  ⟨⟨by decide, by decide, by decide⟩,
    sample_out_spec false [5, 6] [true, false] [7, 8] 1
      (by decide) (by decide) (by decide)⟩

/-! ### C4 / C10: classifier-free guidance velocity function `fn`
(`cfm.py` lines 316-342)

The transformer collaborator is abstracted as
`predict time x mask drop_audio_cond drop_text`; `step_cond` and `text`
are closed over and play no role in the properties, so they are folded
into `predict`. Each invocation of the collaborator is recorded in a
call list so that call counts and argument flags are observable. -/

/-- Record of one transformer invocation inside `fn`. -/
structure TransformerCall where
  time : ℚ
  dropAudioCond : Bool
  dropText : Bool
  maskArg : Option (List (List Bool))
deriving DecidableEq

/-- The guidance velocity function `fn` from `F5TTS.sample`: one
conditioned call; if `cfg_strength < 1e-5` return it, else a second call
with both drop flags true and the guidance combination
`pred + (pred - null_pred) * cfg_strength`. -/
def fn (predict : ℚ → List ℚ → Option (List (List Bool)) → Bool → Bool → List ℚ)
    (cfg_strength : ℚ) (mask : Option (List (List Bool))) (t : ℚ) (x : List ℚ) :
    List ℚ × List TransformerCall :=
  let pred := predict t x mask false false
  if cfg_strength < 1 / 100000 then
    (pred, [⟨t, false, false, mask⟩])
  else
    let null_pred := predict t x mask true true
    (vadd pred (vsmul cfg_strength (vsub pred null_pred)),
      [⟨t, false, false, mask⟩, ⟨t, true, true, mask⟩])

/-- Claim C4: when the guidance strength is below `1e-5` the result is
exactly the conditioned prediction and the transformer is invoked once;
otherwise a second invocation with both drop flags true is made and the
result is `conditioned + (conditioned - unconditioned) * strength`. -/
theorem cfg_guidance_spec
    (predict : ℚ → List ℚ → Option (List (List Bool)) → Bool → Bool → List ℚ)
    (s : ℚ) (m : Option (List (List Bool))) (t : ℚ) (x : List ℚ) :
    (s < 1 / 100000 →
      (fn predict s m t x).1 = predict t x m false false ∧
      (fn predict s m t x).2 = [⟨t, false, false, m⟩]) ∧
    (1 / 100000 ≤ s →
      (fn predict s m t x).1 =
        vadd (predict t x m false false)
          (vsmul s (vsub (predict t x m false false) (predict t x m true true))) ∧
      (fn predict s m t x).2 = [⟨t, false, false, m⟩, ⟨t, true, true, m⟩]) := by
  constructor
  · intro h
    simp only [fn]
    rw [if_pos h]
    exact ⟨rfl, rfl⟩
  · intro h
    simp only [fn]
    rw [if_neg (not_lt.2 h)]
    exact ⟨rfl, rfl⟩

/-- Concrete transformer stand-in for witnesses: returns `[3]` when the
audio conditioning is dropped and `[5]` otherwise. -/
def predict_demo (_t : ℚ) (_x : List ℚ) (_m : Option (List (List Bool)))
    (da _dt : Bool) : List ℚ :=
  if da then [3] else [5]

/-- Witness for `cfg_guidance_spec` at strengths `0` (below epsilon) and
`2` (above epsilon). -/
theorem cfg_guidance_spec_witness :
    ((0 : ℚ) < 1 / 100000 ∧
      (fn predict_demo 0 none 0 []).1 = predict_demo 0 [] none false false) ∧
    ((1 / 100000 : ℚ) ≤ 2 ∧
      (fn predict_demo 2 none 0 []).2 =
        [⟨0, false, false, none⟩, ⟨0, true, true, none⟩]) :=
  ⟨⟨by norm_num, ((cfg_guidance_spec predict_demo 0 none 0 []).1 (by norm_num)).1⟩,
    ⟨by norm_num, ((cfg_guidance_spec predict_demo 2 none 0 []).2 (by norm_num)).2⟩⟩

/-! ### C6: Euler integrator (`cfm.py` lines 198-220)

`ys = [y0]`, then for `i` in `range(len(t) - 1)`:
`y_next = y_current + (t[i+1] - t[i]) * func(t[i], y_current)`, appended
to `ys`; finally `mx.stack(ys)` is returned. -/

/-- `F5TTS.odeint_euler`: fixed-step Euler solver returning the full
trajectory, one state per time-grid point. -/
def odeint_euler (func : ℚ → List ℚ → List ℚ) (y0 : List ℚ) : List ℚ → List (List ℚ)
  | t0 :: t1 :: rest =>
      y0 :: odeint_euler func (vadd y0 (vsmul (t1 - t0) (func t0 y0))) (t1 :: rest)
  | _ => [y0]

theorem odeint_euler_length (func : ℚ → List ℚ → List ℚ) :
    ∀ (t : List ℚ) (y0 : List ℚ), (odeint_euler func y0 t).length = max 1 t.length := by
  intro t
  induction t with
  | nil =>
    intro y0
    simp [odeint_euler]
  | cons t0 t' ih =>
    intro y0
    cases t' with
    | nil => simp [odeint_euler]
    | cons t1 rest =>
      simp only [odeint_euler, List.length_cons, ih]
      omega

theorem odeint_euler_getD_zero (func : ℚ → List ℚ → List ℚ) (y0 : List ℚ)
    (t : List ℚ) : (odeint_euler func y0 t).getD 0 [] = y0 := by
  match t with
  | [] => simp [odeint_euler]
  | [t0] => simp [odeint_euler]
  | t0 :: t1 :: rest => simp [odeint_euler]

theorem odeint_euler_step (func : ℚ → List ℚ → List ℚ) :
    ∀ (t : List ℚ) (y0 : List ℚ) (i : ℕ), i + 1 < t.length →
      (odeint_euler func y0 t).getD (i + 1) [] =
        vadd ((odeint_euler func y0 t).getD i [])
          (vsmul (t.getD (i + 1) 0 - t.getD i 0)
            (func (t.getD i 0) ((odeint_euler func y0 t).getD i []))) := by
  intro t
  induction t with
  | nil =>
    intro y0 i hi
    simp at hi
  | cons t0 t' ih =>
    intro y0 i hi
    cases t' with
    | nil =>
      simp at hi
    | cons t1 rest =>
      cases i with
      | zero =>
        have h0 := odeint_euler_getD_zero func (vadd y0 (vsmul (t1 - t0) (func t0 y0))) (t1 :: rest)
        simp only [odeint_euler, List.getD_cons_zero, List.getD_cons_succ, h0]
      | succ j =>
        have hj : j + 1 < (t1 :: rest).length := Nat.lt_of_succ_lt_succ hi
        have hrec := ih (vadd y0 (vsmul (t1 - t0) (func t0 y0))) j hj
        simpa [odeint_euler] using hrec

/-- Claim C6: for a time grid of length at least 1, `odeint_euler`
returns exactly one state per grid point, the first being `y0`, and each
successive state equals the previous one plus
`(t[i+1] - t[i]) * func(t[i], previous)` — every intermediate state is
present. -/
theorem odeint_euler_spec (func : ℚ → List ℚ → List ℚ) (y0 : List ℚ)
    (t : List ℚ) (h : 1 ≤ t.length) :
    (odeint_euler func y0 t).length = t.length ∧
    (odeint_euler func y0 t).getD 0 [] = y0 ∧
    ∀ i, i + 1 < t.length →
      (odeint_euler func y0 t).getD (i + 1) [] =
        vadd ((odeint_euler func y0 t).getD i [])
          (vsmul (t.getD (i + 1) 0 - t.getD i 0)
            (func (t.getD i 0) ((odeint_euler func y0 t).getD i []))) := by
  refine ⟨?_, odeint_euler_getD_zero func y0 t, fun i hi => odeint_euler_step func t y0 i hi⟩
  rw [odeint_euler_length]
  omega

/-- Witness for `odeint_euler_spec`: integrating `func t y = y` from
`[1]` over the grid `[0, 1]` yields a trajectory of length 2. -/
theorem odeint_euler_spec_witness :
    1 ≤ ([(0 : ℚ), 1]).length ∧
    (odeint_euler (fun _ y => y) [1] [(0 : ℚ), 1]).length = ([(0 : ℚ), 1]).length :=
  ⟨by decide, (odeint_euler_spec (fun _ y => y) [1] [(0 : ℚ), 1] (by decide)).1⟩

/-! ### C7: training loss normalization guard (`cfm.py` lines 161-168)

```
loss = nn.losses.mse_loss(pred, flow, reduction="none")
masked_loss = mx.where(rand_span_mask, loss, mx.zeros_like(loss))
loss = mx.sum(masked_loss) / mx.maximum(mx.sum(rand_span_mask), 1e-6)
```
The span mask is broadcast over channels before use; arrays are
flattened to one list here. `mx.sum` of a boolean mask counts its true
entries. -/

/-- Loss normalization denominator from `F5TTS.__call__`: the number of
mask-true elements, floored at `1e-6`. -/
def loss_denominator (mask : List Bool) : ℚ :=
  max ((mask.countP (fun m => m) : ℕ) : ℚ) (1 / 1000000)

/-- Masked mean-squared-error training loss from `F5TTS.__call__`. -/
def train_loss (pred flow : List ℚ) (mask : List Bool) : ℚ :=
  let loss := List.zipWith (fun p f => (p - f) ^ 2) pred flow
  let masked_loss := List.zipWith (fun m l => if m then l else 0) mask loss
  masked_loss.sum / loss_denominator mask

theorem masked_sum_zero (loss : List ℚ) (mask : List Bool)
    (h : ∀ m ∈ mask, m = false) :
    (List.zipWith (fun m l => if m then l else (0 : ℚ)) mask loss).sum = 0 := by
  induction mask generalizing loss with
  | nil => simp
  | cons m ms ih =>
    cases loss with
    | nil => simp
    | cons l ls =>
      have hm : m = false := h m (List.mem_cons_self _ _)
      have hms : ∀ x ∈ ms, x = false := fun x hx => h x (List.mem_cons_of_mem _ hx)
      simp [hm, ih ls hms]

/-- Claim C7: the loss denominator is strictly positive (floored at
`1e-6`), so the normalization never divides by zero, and an all-false
span mask yields loss `0`. -/
theorem train_loss_guard_spec (pred flow : List ℚ) (mask : List Bool) :
    (0 : ℚ) < loss_denominator mask ∧
    (1 / 1000000 : ℚ) ≤ loss_denominator mask ∧
    ((∀ m ∈ mask, m = false) → train_loss pred flow mask = 0) := by
  refine ⟨lt_of_lt_of_le (by norm_num) (le_max_right _ _), le_max_right _ _, ?_⟩
  intro h
  simp [train_loss, masked_sum_zero _ _ h]

/-- Witness for `train_loss_guard_spec` on the all-false mask
`[false, false]`. -/
theorem train_loss_guard_spec_witness :
    (∀ m ∈ [false, false], m = false) ∧
    train_loss [1, 2] [3, 4] [false, false] = 0 :=
  ⟨by decide, (train_loss_guard_spec [1, 2] [3, 4] [false, false]).2.2 (by decide)⟩

/-! ### C3: per-example noise draws in `F5TTS.sample`
(`cfm.py` lines 346-351)

```
y0 = []
for dur in duration:
    if exists(seed):
        mx.random.seed(seed)
    y0.append(mx.random.normal((dur, self.num_channels)))
```
The process-wide generator is abstracted as a state `st : ℕ`;
`mx.random.seed(seed)` replaces the state by `seed`, and one call of
`mx.random.normal` is `gen st dur = (values, next state)` for an
arbitrary generator function `gen` (the channel dimension is folded into
`gen`). -/

/-- The noise-drawing loop from `F5TTS.sample`: per duration, reseed the
global generator when a seed is supplied, then draw. -/
def draw_noise (gen : ℕ → ℕ → List ℚ × ℕ) (seed : Option ℕ) :
    List ℕ → ℕ → List (List ℚ) × ℕ
  | [], st => ([], st)
  | dur :: durs, st =>
      let st1 := match seed with
        | some s => s
        | none => st
      let r := gen st1 dur
      let rest := draw_noise gen seed durs r.2
      (r.1 :: rest.1, rest.2)

theorem draw_noise_seeded_getD (gen : ℕ → ℕ → List ℚ × ℕ) (s : ℕ) :
    ∀ (durs : List ℕ) (st i : ℕ), i < durs.length →
      (draw_noise gen (some s) durs st).1.getD i [] = (gen s (durs.getD i 0)).1 := by
  intro durs
  induction durs with
  | nil =>
    intro st i hi
    simp at hi
  | cons d ds ih =>
    intro st i hi
    cases i with
    | zero => simp [draw_noise]
    | succ j =>
      have hj : j < ds.length := Nat.lt_of_succ_lt_succ hi
      simpa [draw_noise] using ih (gen s d).2 j hj

/-- Claim C3: with a caller-supplied seed, the generator is reseeded
before every draw, so two examples with equal durations get identical
initial noise; without a seed the state threads from draw to draw, and
examples with equal durations can receive different noise. -/
theorem sample_noise_seed_spec (gen : ℕ → ℕ → List ℚ × ℕ) (s st : ℕ)
    (durs : List ℕ) (i j : ℕ) (hi : i < durs.length) (hj : j < durs.length)
    (hd : durs.getD i 0 = durs.getD j 0) :
    (draw_noise gen (some s) durs st).1.getD i [] =
      (draw_noise gen (some s) durs st).1.getD j [] ∧
    (∀ d ds st2, (draw_noise gen none (d :: ds) st2).1.getD 0 [] = (gen st2 d).1) ∧
    (∃ gen2 : ℕ → ℕ → List ℚ × ℕ, ∃ st2 : ℕ,
      (draw_noise gen2 none [1, 1] st2).1.getD 0 [] ≠
        (draw_noise gen2 none [1, 1] st2).1.getD 1 []) := by
  refine ⟨?_, ?_, ?_⟩
  · rw [draw_noise_seeded_getD gen s durs st i hi,
      draw_noise_seeded_getD gen s durs st j hj, hd]
  · intro d ds st2
    simp [draw_noise]
  · refine ⟨fun st _ => ([(st : ℚ)], st + 1), 0, ?_⟩
    decide

/-- Deterministic stand-in generator for the witness: position `k` of a
draw of size `d` from state `st` holds `st + k`, and the state advances
by `d`. -/
def gen_demo (st d : ℕ) : List ℚ × ℕ :=
  ((List.range d).map (fun k => ((st + k : ℕ) : ℚ)), st + d)

/-- Witness for `sample_noise_seed_spec` with durations `[3, 2, 3]`,
seed `7`: examples 0 and 2 receive identical noise. -/
theorem sample_noise_seed_spec_witness :
    (0 < [3, 2, 3].length ∧ 2 < [3, 2, 3].length ∧
      [3, 2, 3].getD 0 0 = [3, 2, 3].getD 2 0) ∧
    (draw_noise gen_demo (some 7) [3, 2, 3] 0).1.getD 0 [] =
      (draw_noise gen_demo (some 7) [3, 2, 3] 0).1.getD 2 [] :=
  ⟨⟨by decide, by decide, by decide⟩,
    (sample_noise_seed_spec gen_demo 7 0 [3, 2, 3] 0 2
      (by decide) (by decide) (by decide)).1⟩

/-! ### C8: explicit fail-fast checks in `F5TTS.sample`

The four explicit checks, in source order:
- line 249: `assert cond.shape[-1] == self.num_channels` (raw-wave input);
- line 262: `assert text.shape[0] == batch` (text given as a list);
- lines 277-280: `raise ValueError` when duration is unresolved;
- lines 363-364: `raise ValueError` for an unknown method name. -/

/-- Arguments and configuration of one `F5TTS.sample` call, restricted
to what its explicit checks consult. -/
structure SampleArgs where
  cond_is_raw_wave : Bool
  mel_channels : ℕ
  num_channels : ℕ
  batch : ℕ
  text_is_list : Bool
  text_batch : ℕ
  duration : Option ℕ
  has_duration_predictor : Bool
  method : String
deriving DecidableEq

/-- True iff the call failed. -/
def is_error : Except String Unit → Bool
  | Except.error _ => true
  | Except.ok _ => false

/-- The explicit checks of `F5TTS.sample`, in source order. -/
def sample_checks (a : SampleArgs) : Except String Unit :=
  if a.cond_is_raw_wave = true ∧ a.mel_channels ≠ a.num_channels then
    Except.error "assert cond channels"
  else if a.text_is_list = true ∧ a.text_batch ≠ a.batch then
    Except.error "assert text batch"
  else if a.duration = none ∧ a.has_duration_predictor = false then
    Except.error "Duration must be provided or a duration predictor must be set."
  else if a.method ≠ "euler" ∧ a.method ≠ "midpoint" then
    Except.error "Unknown method"
  else Except.ok ()

/-- A call with features input, a text list of length 1 against batch 2,
an explicit duration and the euler method. -/
def args_text_mismatch : SampleArgs :=
  ⟨false, 100, 100, 2, true, 1, some 50, false, "euler"⟩

/-- Claim C8 as stated is false: `sample` also fails fast when a
caller-supplied text list tokenizes to a batch size different from the
conditioning batch (the assert at line 262), a case outside the three
listed ones, exhibited by `args_text_mismatch`. -/
theorem sample_checks_claim_false :
    is_error (sample_checks args_text_mismatch) = true ∧
    ¬ ((args_text_mismatch.duration = none ∧
          args_text_mismatch.has_duration_predictor = false) ∨
       (args_text_mismatch.method ≠ "euler" ∧
          args_text_mismatch.method ≠ "midpoint") ∨
       (args_text_mismatch.cond_is_raw_wave = true ∧
          args_text_mismatch.mel_channels ≠ args_text_mismatch.num_channels)) := by
  constructor
  · rfl
  · decide

/-- Claim C8 (amended): the explicit checks of `sample` fail in exactly
four cases — raw-wave feature-channel mismatch, tokenized-text batch
mismatch, unresolved duration, unknown method name. -/
theorem sample_checks_spec (a : SampleArgs) :
    is_error (sample_checks a) = true ↔
      ((a.cond_is_raw_wave = true ∧ a.mel_channels ≠ a.num_channels) ∨
       (a.text_is_list = true ∧ a.text_batch ≠ a.batch) ∨
       (a.duration = none ∧ a.has_duration_predictor = false) ∨
       (a.method ≠ "euler" ∧ a.method ≠ "midpoint")) := by
  unfold sample_checks
  split_ifs with h1 h2 h3 h4 <;> simp_all [is_error, Bool.not_eq_false]

/-! ### C9: sway-warped time grid (`cfm.py` lines 353-357)

```
t = mx.linspace(t_start, 1, steps)        # t_start = 0
t = t + sway_sampling_coef * (mx.cos(mx.pi / 2 * t) - 1 + t)
```
Definitions are polymorphic over the scalar field so they stay
executable; the endpoint theorem instantiates them at `ℝ` with
`Real.cos` and `π / 2`. -/

/-- `mx.linspace(0, 1, steps)`: grid point `i` is `i / (steps - 1)`. -/
def linspace_grid {α : Type} [Field α] (steps : ℕ) : List α :=
  (List.range steps).map (fun i : ℕ => (i : α) / ((steps : α) - 1))

/-- The sway warp applied to one grid point:
`t + coef * (cos(π/2 * t) - 1 + t)`, with the cosine and `π/2` passed
in as parameters. -/
def sway_warp {α : Type} [Field α] (cosf : α → α) (halfPi coef t : α) : α :=
  t + coef * (cosf (halfPi * t) - 1 + t)

/-- The warped time grid built by `F5TTS.sample`. -/
def sway_grid {α : Type} [Field α] (cosf : α → α) (halfPi coef : α) (steps : ℕ) :
    List α :=
  (linspace_grid steps).map (sway_warp cosf halfPi coef)

theorem sway_grid_getD (cosf : ℝ → ℝ) (hp c : ℝ) (steps i : ℕ) (hi : i < steps) :
    (sway_grid cosf hp c steps).getD i 0 =
      sway_warp cosf hp c ((i : ℝ) / ((steps : ℝ) - 1)) := by
  unfold sway_grid linspace_grid
  have hs :
      i < (((List.range steps).map
        (fun j : ℕ => (j : ℝ) / ((steps : ℝ) - 1))).map (sway_warp cosf hp c)).length := by
    simpa using hi
  rw [List.getD_eq_getElem _ _ hs, List.getElem_map, List.getElem_map,
    List.getElem_range]

/-- Claim C9: for any step count at least 2 and any sway coefficient,
the warped grid still starts at 0 and ends at 1. -/
theorem sway_grid_endpoints (steps : ℕ) (coef : ℝ) (h : 2 ≤ steps) :
    (sway_grid Real.cos (Real.pi / 2) coef steps).getD 0 0 = 0 ∧
    (sway_grid Real.cos (Real.pi / 2) coef steps).getD (steps - 1) 0 = 1 := by
  have h0 : 0 < steps := by omega
  have hlast : steps - 1 < steps := by omega
  have h1 : 1 ≤ steps := by omega
  have hne : ((steps : ℝ) - 1) ≠ 0 := by
    have h2 : (2 : ℝ) ≤ (steps : ℝ) := by exact_mod_cast h
    intro hc
    nlinarith
  have hcast : (((steps - 1 : ℕ)) : ℝ) = (steps : ℝ) - 1 := by
    rw [Nat.cast_sub h1, Nat.cast_one]
  constructor
  · rw [sway_grid_getD _ _ _ _ _ h0]
    simp [sway_warp, Real.cos_zero]
  · rw [sway_grid_getD _ _ _ _ _ hlast, hcast, div_self hne]
    simp [sway_warp, Real.cos_pi_div_two]

/-- Witness for `sway_grid_endpoints` at `steps = 2`, `coef = -1`. -/
theorem sway_grid_endpoints_witness :
    2 ≤ 2 ∧
    (sway_grid Real.cos (Real.pi / 2) (-1) 2).getD 0 0 = 0 ∧
    (sway_grid Real.cos (Real.pi / 2) (-1) 2).getD 1 0 = 1 :=
  ⟨by norm_num, (sway_grid_endpoints 2 (-1) (by norm_num)).1,
    (sway_grid_endpoints 2 (-1) (by norm_num)).2⟩

/-! ### C10: validity-mask selection (`cfm.py` lines 305-308)

```
if batch > 1:
    mask = lens_to_mask(duration)
else:
    mask = None
```
`fn` closes over `mask` and passes it to every transformer call of every
integration step. -/

/-- Modelled from the spec: `lens_to_mask` lives in
`f5_tts_mlx/utils.py`, which is not under src/. Per the spec
(sections 4.1 and 8), each row is true exactly for positions below that
length value of the example; the row width defaults to the batch maximum. -/
def lens_to_mask (lens : List ℕ) (width : ℕ) : List (List Bool) :=
  lens.map (fun l => (List.range width).map (fun p => decide (p < l)))

/-- Validity-mask selection from `F5TTS.sample`: a mask built from the
per-example durations for batch > 1, `None` otherwise. -/
def sample_mask (batch : ℕ) (duration : List ℕ) : Option (List (List Bool)) :=
  if 1 < batch then some (lens_to_mask duration (duration.foldr max 0)) else none

/-- The ODE integration loop with the transformer-call records of the
velocity function collected across all steps. -/
def odeint_euler_calls (f : ℚ → List ℚ → List ℚ × List TransformerCall)
    (y0 : List ℚ) : List ℚ → List (List ℚ) × List TransformerCall
  | t0 :: t1 :: rest =>
      let r := f t0 y0
      let next := odeint_euler_calls f (vadd y0 (vsmul (t1 - t0) r.1)) (t1 :: rest)
      (y0 :: next.1, r.2 ++ next.2)
  | _ => ([y0], [])

theorem fn_calls_mask
    (predict : ℚ → List ℚ → Option (List (List Bool)) → Bool → Bool → List ℚ)
    (s : ℚ) (m : Option (List (List Bool))) (t : ℚ) (x : List ℚ) :
    ∀ c ∈ (fn predict s m t x).2, c.maskArg = m := by
  intro c hc
  simp only [fn] at hc
  split at hc
  · simp only [List.mem_singleton] at hc
    subst hc
    rfl
  · simp only [List.mem_cons, List.mem_singleton, List.not_mem_nil, or_false] at hc
    rcases hc with h | h <;> (subst h; rfl)

theorem odeint_euler_calls_mask
    (predict : ℚ → List ℚ → Option (List (List Bool)) → Bool → Bool → List ℚ)
    (s : ℚ) (m : Option (List (List Bool))) :
    ∀ (t : List ℚ) (y0 : List ℚ),
      ∀ c ∈ (odeint_euler_calls (fn predict s m) y0 t).2, c.maskArg = m := by
  intro t
  induction t with
  | nil =>
    intro y0 c hc
    simp [odeint_euler_calls] at hc
  | cons t0 t' ih =>
    intro y0 c hc
    cases t' with
    | nil => simp [odeint_euler_calls] at hc
    | cons t1 rest =>
      simp only [odeint_euler_calls, List.mem_append] at hc
      rcases hc with h | h
      · exact fn_calls_mask predict s m t0 y0 c h
      · exact ih _ c h

/-- Claim C10: `sample` builds a validity mask from the per-example
durations only for batch > 1, passes `None` for a batch of exactly 1,
and every transformer invocation of every integration step receives
exactly that mask argument. -/
theorem sample_mask_spec (batch : ℕ) (duration : List ℕ)
    (predict : ℚ → List ℚ → Option (List (List Bool)) → Bool → Bool → List ℚ)
    (s : ℚ) (y0 : List ℚ) (t : List ℚ) :
    (batch = 1 → sample_mask batch duration = none) ∧
    (1 < batch → sample_mask batch duration =
      some (lens_to_mask duration (duration.foldr max 0))) ∧
    ∀ c ∈ (odeint_euler_calls (fn predict s (sample_mask batch duration)) y0 t).2,
      c.maskArg = sample_mask batch duration := by
  refine ⟨?_, ?_, odeint_euler_calls_mask predict s _ t y0⟩
  · intro hb
    subst hb
    simp [sample_mask]
  · intro hb
    simp [sample_mask, hb]

/-- Witness for `sample_mask_spec`: batch 1 yields no mask; batch 2
yields the duration mask. -/
theorem sample_mask_spec_witness :
    sample_mask 1 [3] = none ∧
    sample_mask 2 [2, 3] = some (lens_to_mask [2, 3] ([2, 3].foldr max 0)) :=
  ⟨(sample_mask_spec 1 [3] predict_demo 0 [] []).1 rfl,
    (sample_mask_spec 2 [2, 3] predict_demo 0 [] []).2.1 (by decide)⟩

end F5TTS
